import Mathlib

/-!
Shallow embedding of the EVM transaction-attempt builder
(`core/chains/evm/txmgr/attempts.go`) from the chainlink repository.

Modelling conventions:
* `assets.Wei` (the "Price" of the spec) is not under `src/`; following the
  spec it is an arbitrary-precision non-negative integer, embedded as `Nat`;
  `Cmp` becomes the `Nat` order.
* Go pointers become `Option`; a pointer that a code path dereferences only
  after its own nil-check is passed dereferenced to the callee (the Go
  validators panic on nil input, which every caller rules out first, so the
  embedded validators take the dereferenced values).
* `uint32` / `uint64` gas limits and nonces are carried as `Nat`: the builder
  only passes them through, it performs no arithmetic on them.
* The signing keystore, the fee estimator (`GetFee` / `BumpFee`) and the fee
  configuration are injected capabilities, embedded as function-valued fields
  of the builder; `context.Context` and the variadic `Opt` parameters are
  dropped (pure plumbing).
* Go `(value..., error)` returns are embedded as tuples ending in
  `Option` of a structured error type, or as `Except` where Go returns the
  zero value alongside the error.
-/

namespace Txmgr

/-- Modelled from the spec: the Price type (`assets.Wei`, not under `src/`) is
an arbitrary-precision non-negative integer compared by total order. -/
abbrev Wei := Nat

/-- An account address (`common.Address`), opaque to the builder. -/
abbrev Address := Nat

/-- `gas.EvmFee` — Modelled from the spec: a fee quote over exactly two
transaction fee models, a legacy gas price and/or a dynamic
(fee-cap, tip-cap) pair; the Go struct holds three pointer fields. -/
structure EvmFee where
  Legacy : Option Wei
  DynamicFeeCap : Option Wei
  DynamicTipCap : Option Wei
deriving Repr, DecidableEq, Inhabited

/-- Modelled from the spec: a quote is a valid dynamic quote when both the
fee-cap and the tip-cap of the dynamic variant are populated
(`gas.EvmFee.ValidDynamic`, not under `src/`). -/
def EvmFee.ValidDynamic (fee : EvmFee) : Bool :=
  fee.DynamicFeeCap.isSome && fee.DynamicTipCap.isSome

/-- `gas.DynamicFee` — the (fee-cap, tip-cap) pair; Go holds two pointers. -/
structure DynamicFee where
  FeeCap : Option Wei
  TipCap : Option Wei
deriving Repr, DecidableEq, Inhabited

/-- A pending transaction intent (`Tx` / `etx`).  The sequence number is a
pointer in Go, dereferenced unconditionally by the construction paths; the
spec assigns it exactly once before an attempt is built, so it is carried
plain here. -/
structure Tx where
  ID : Nat
  Sequence : Nat
  FromAddress : Address
  ToAddress : Address
  Value : Int
  FeeLimit : Nat
  EncodedPayload : List Nat
deriving Repr, DecidableEq, Inhabited

/-- Attempt lifecycle tag (`txmgrtypes.TxAttemptState`, not under `src/`).
Modelled from the spec's state machine; `unset` is the Go zero value of the
field, distinct from every real state. -/
inductive TxAttemptState where
  | unset
  | inProgress
  | broadcast
  | confirmed
  | timedOut
deriving Repr, DecidableEq, Inhabited

/-- One concrete signed broadcast candidate (`TxAttempt`).  The Go zero value
is `default`. -/
structure TxAttempt where
  ID : Nat
  TxID : Nat
  State : TxAttemptState
  TxFee : EvmFee
  TxType : Nat
  ChainSpecificFeeLimit : Nat
  SignedRawTx : List Nat
  Hash : Nat
  BroadcastBeforeBlockNum : Option Int
  Tx : Tx
deriving Repr, DecidableEq, Inhabited

/-- The unsigned transaction structures built by `newLegacyTransaction` and
`newDynamicFeeTransaction` (`types.LegacyTx` / `types.DynamicFeeTx`). -/
inductive UnsignedTx where
  | legacy (nonce : Nat) (toAddr : Address) (value : Int) (gas : Nat)
      (gasPrice : Wei) (data : List Nat)
  | dynamic (chainID : Nat) (nonce : Nat) (gasTipCap gasFeeCap : Wei)
      (gas : Nat) (toAddr : Address) (value : Int) (data : List Nat)
deriving Repr, DecidableEq

/-- `newLegacyTransaction`: populate a legacy unsigned transaction. -/
def newLegacyTransaction (nonce : Nat) (toAddr : Address) (value : Int)
    (gasLimit : Nat) (gasPrice : Wei) (data : List Nat) : UnsignedTx :=
  .legacy nonce toAddr value gasLimit gasPrice data

/-- `newDynamicFeeTransaction`: populate a dynamic-fee unsigned transaction. -/
def newDynamicFeeTransaction (nonce : Nat) (toAddr : Address) (value : Int)
    (gasLimit : Nat) (chainID : Nat) (gasTipCap gasFeeCap : Wei)
    (data : List Nat) : UnsignedTx :=
  .dynamic chainID nonce gasTipCap gasFeeCap gasLimit toAddr value data

/-- The opaque result of the external signing capability: a signed
transaction already carrying its canonical RLP serialization and hash. -/
structure SignedTx where
  hash : Nat
  rlp : List Nat
deriving Repr, DecidableEq

/-- `gas.EvmPriorAttempt`: the estimator-facing view of a prior attempt. -/
structure EvmPriorAttempt where
  ChainSpecificFeeLimit : Nat
  BroadcastBeforeBlockNum : Option Int
  TxHash : Nat
  TxType : Nat
  GasPrice : Option Wei
  DynamicFee : DynamicFee
deriving Repr, DecidableEq

/-- `evmTxAttemptBuilderFeeConfig`: the injected fee configuration. -/
structure FeeConfig where
  EIP1559DynamicFees : Bool
  TipCapMin : Wei
  PriceMin : Wei
  PriceMaxKey : Address → Wei

/-- `evmTxAttemptBuilder`: chain id, fee configuration, signing keystore and
the embedded `gas.EvmFeeEstimator` (its two operations as fields).  The
estimator operations return (fee, fee limit, error) exactly as in Go. -/
structure evmTxAttemptBuilder where
  chainID : Nat
  feeConfig : FeeConfig
  keystore : Address → UnsignedTx → Nat → Except String SignedTx
  GetFee : List Nat → Nat → Wei → EvmFee × Nat × Option String
  BumpFee : EvmFee → Nat → Wei → List EvmPriorAttempt → EvmFee × Nat × Option String

/-- Structured gas-validation errors; each constructor carries the values the
Go `errors.Errorf` message embeds (offending value, violated bound, key). -/
inductive GasErr where
  | feeCapTooLarge
  | tipCapTooLarge
  | feeCapLtTipCap (feeCap tipCap : Wei)
  | feeCapAboveMax (feeCap max : Wei) (key : Address)
  | tipCapBelowMin (tipCap min : Wei) (key : Address)
  | priceAboveMax (price max : Wei) (key : Address)
  | priceBelowMin (price min : Wei) (key : Address)
deriving Repr, DecidableEq

/-- Structured attempt-builder errors. -/
inductive TxErr where
  | wrongTypeLegacy
  | wrongTypeDynamic
  | unrecognisedType
  | invalidGas (e : GasErr)
  | signFailed (msg : String)
  | estimatorFailed (msg : String)
  | bumpFailed (msg : String)
  | emptyNilLegacy
deriving Repr, DecidableEq

/-- `Max256BitUInt = 2^256`, exactly as the Go
`big.NewInt(0).Exp(big.NewInt(2), big.NewInt(256), nil)`. -/
def Max256BitUInt : Nat := 2 ^ 256

/-- `validateLegacyGas`: ceiling then floor check.  The Go function panics
when `gasPrice` is nil; its only caller dereferences after a nil-check, so
the price is taken dereferenced. -/
def validateLegacyGas (kse : Address → Wei) (minGasPriceWei : Wei)
    (gasPrice : Wei) (gasLimit : Nat) (etx : Tx) : Except GasErr Unit :=
  let max := kse etx.FromAddress
  if max < gasPrice then
    .error (.priceAboveMax gasPrice max etx.FromAddress)
  else
    let min := minGasPriceWei
    if gasPrice < min then
      .error (.priceBelowMin gasPrice min etx.FromAddress)
    else
      .ok ()

/-- `validateDynamicFeeGas`: 256-bit domain checks, cap ordering, per-key
ceiling, tip floor — in the Go order.  The Go function panics when either
cap of the `DynamicFee` is nil; its only caller builds the pair from a
`ValidDynamic` quote, so the caps are taken dereferenced.  Note the Go
domain check is `Cmp(Max256BitUInt) > 0`, i.e. strictly above `2^256`. -/
def validateDynamicFeeGas (kse : Address → Wei) (tipCapMinimum : Wei)
    (gasFeeCap gasTipCap : Wei) (gasLimit : Nat) (etx : Tx) :
    Except GasErr Unit :=
  if Max256BitUInt < gasFeeCap then
    .error .feeCapTooLarge
  else if Max256BitUInt < gasTipCap then
    .error .tipCapTooLarge
  else if gasFeeCap < gasTipCap then
    .error (.feeCapLtTipCap gasFeeCap gasTipCap)
  else
    let max := kse etx.FromAddress
    if max < gasFeeCap then
      .error (.feeCapAboveMax gasFeeCap max etx.FromAddress)
    else
      let minTip := tipCapMinimum
      if gasTipCap < minTip then
        .error (.tipCapBelowMin gasTipCap minTip etx.FromAddress)
      else
        .ok ()

/-- `evmTxAttemptBuilder.SignTx`: delegate to the keystore, RLP-encode and
hash.  Serialization and hashing of the opaque signed transaction are part
of the injected capability's result. -/
def evmTxAttemptBuilder.SignTx (c : evmTxAttemptBuilder) (address : Address)
    (tx : UnsignedTx) : Except String (Nat × List Nat) :=
  match c.keystore address tx c.chainID with
  | .error e => .error ("SignTx failed: " ++ e)
  | .ok signedTx => .ok (signedTx.hash, signedTx.rlp)

/-- `newSignedAttempt`: sign and populate the common attempt fields. -/
def newSignedAttempt (c : evmTxAttemptBuilder) (etx : Tx)
    (tx : UnsignedTx) : Except TxErr TxAttempt :=
  match c.SignTx etx.FromAddress tx with
  | .error e => .error (.signFailed e)
  | .ok (hash, signedTxBytes) =>
      .ok { (default : TxAttempt) with
              State := .inProgress
              SignedRawTx := signedTxBytes
              TxID := etx.ID
              Tx := etx
              Hash := hash }

/-- `newLegacyAttempt`: validate, build the legacy transaction, sign, and
populate the attempt.  On error Go returns the zero-value attempt, which the
`Except` error branch represents. -/
def newLegacyAttempt (c : evmTxAttemptBuilder) (etx : Tx) (gasPrice : Wei)
    (gasLimit : Nat) : Except TxErr TxAttempt :=
  match validateLegacyGas c.feeConfig.PriceMaxKey c.feeConfig.PriceMin
      gasPrice gasLimit etx with
  | .error e => .error (.invalidGas e)
  | .ok _ =>
      let tx := newLegacyTransaction etx.Sequence etx.ToAddress etx.Value
        gasLimit gasPrice etx.EncodedPayload
      match c.SignTx etx.FromAddress tx with
      | .error e => .error (.signFailed e)
      | .ok (hash, signedTxBytes) =>
          .ok { (default : TxAttempt) with
                  State := .inProgress
                  SignedRawTx := signedTxBytes
                  TxID := etx.ID
                  TxFee := { Legacy := some gasPrice, DynamicFeeCap := none,
                             DynamicTipCap := none }
                  Hash := hash
                  TxType := 0
                  ChainSpecificFeeLimit := gasLimit
                  Tx := etx }

/-- `newDynamicFeeAttempt`: validate, build the dynamic-fee transaction via
`newSignedAttempt`, then set fee/limit/type.  The caps of the `DynamicFee`
argument are taken dereferenced (see `validateDynamicFeeGas`). -/
def newDynamicFeeAttempt (c : evmTxAttemptBuilder) (etx : Tx)
    (feeCap tipCap : Wei) (gasLimit : Nat) : Except TxErr TxAttempt :=
  match validateDynamicFeeGas c.feeConfig.PriceMaxKey c.feeConfig.TipCapMin
      feeCap tipCap gasLimit etx with
  | .error e => .error (.invalidGas e)
  | .ok _ =>
      let d := newDynamicFeeTransaction etx.Sequence etx.ToAddress etx.Value
        gasLimit c.chainID tipCap feeCap etx.EncodedPayload
      match newSignedAttempt c etx d with
      | .error e => .error e
      | .ok attempt =>
          .ok { attempt with
                  TxFee := { Legacy := none, DynamicFeeCap := some feeCap,
                             DynamicTipCap := some tipCap }
                  ChainSpecificFeeLimit := gasLimit
                  TxType := 2 }

/-- `NewCustomTxAttempt`: dispatch on the transaction type; type-mismatch and
unknown-type errors are not retryable, errors from the construction paths are
returned with `retryable = true`.  Result components: attempt (Go zero value
on every error), retryable flag, error. -/
def NewCustomTxAttempt (c : evmTxAttemptBuilder) (etx : Tx) (fee : EvmFee)
    (gasLimit : Nat) (txType : Nat) : TxAttempt × Bool × Option TxErr :=
  if txType = 0 then
    match fee.Legacy with
    | none => (default, false, some .wrongTypeLegacy)
    | some legacy =>
        match newLegacyAttempt c etx legacy gasLimit with
        | .ok attempt => (attempt, true, none)
        | .error e => (default, true, some e)
  else if txType = 2 then
    if fee.ValidDynamic then
      match fee.DynamicFeeCap, fee.DynamicTipCap with
      | some feeCap, some tipCap =>
          match newDynamicFeeAttempt c etx feeCap tipCap gasLimit with
          | .ok attempt => (attempt, true, none)
          | .error e => (default, true, some e)
      | _, _ => (default, false, some .wrongTypeDynamic)
    else (default, false, some .wrongTypeDynamic)
  else
    (default, false, some .unrecognisedType)

/-- `NewTxAttemptWithType`: query the estimator's quote operation with the
intent's payload, fee limit and per-key price ceiling, then delegate to
`NewCustomTxAttempt`.  Estimator errors are wrapped and marked retryable.
Result components: attempt, fee, fee limit, retryable, error. -/
def NewTxAttemptWithType (c : evmTxAttemptBuilder) (etx : Tx) (txType : Nat) :
    TxAttempt × EvmFee × Nat × Bool × Option TxErr :=
  let keySpecificMaxGasPriceWei := c.feeConfig.PriceMaxKey etx.FromAddress
  match c.GetFee etx.EncodedPayload etx.FeeLimit keySpecificMaxGasPriceWei with
  | (fee, feeLimit, some e) =>
      (default, fee, feeLimit, true, some (.estimatorFailed e))
  | (fee, feeLimit, none) =>
      let (attempt, retryable, err) := NewCustomTxAttempt c etx fee feeLimit txType
      (attempt, fee, feeLimit, retryable, err)

/-- `NewTxAttempt`: type 2 when EIP-1559 dynamic fees are configured, else
type 0, then delegate to `NewTxAttemptWithType`. -/
def NewTxAttempt (c : evmTxAttemptBuilder) (etx : Tx) :
    TxAttempt × EvmFee × Nat × Bool × Option TxErr :=
  let txType := if c.feeConfig.EIP1559DynamicFees then 2 else 0
  NewTxAttemptWithType c etx txType

/-- The per-attempt conversion done inside the `newEvmPriorAttempts` loop. -/
def EvmPriorAttempt.ofTxAttempt (a : TxAttempt) : EvmPriorAttempt :=
  { ChainSpecificFeeLimit := a.ChainSpecificFeeLimit
    BroadcastBeforeBlockNum := a.BroadcastBeforeBlockNum
    TxHash := a.Hash
    TxType := a.TxType
    GasPrice := a.TxFee.Legacy
    DynamicFee := { FeeCap := a.TxFee.DynamicFeeCap,
                    TipCap := a.TxFee.DynamicTipCap } }

/-- `newEvmPriorAttempts`: the Go append-loop over the attempts, in order. -/
def newEvmPriorAttempts (attempts : List TxAttempt) : List EvmPriorAttempt :=
  attempts.map EvmPriorAttempt.ofTxAttempt

/-- `NewBumpTxAttempt`: query the estimator's bump operation with the
previous attempt's fee, the intent's fee limit, the per-key price ceiling and
the converted prior attempts, then delegate to `NewCustomTxAttempt` with the
previous attempt's transaction type. -/
def NewBumpTxAttempt (c : evmTxAttemptBuilder) (etx : Tx)
    (previousAttempt : TxAttempt) (priorAttempts : List TxAttempt) :
    TxAttempt × EvmFee × Nat × Bool × Option TxErr :=
  let keySpecificMaxGasPriceWei := c.feeConfig.PriceMaxKey etx.FromAddress
  match c.BumpFee previousAttempt.TxFee etx.FeeLimit keySpecificMaxGasPriceWei
      (newEvmPriorAttempts priorAttempts) with
  | (bumpedFee, bumpedFeeLimit, some e) =>
      (default, bumpedFee, bumpedFeeLimit, true, some (.bumpFailed e))
  | (bumpedFee, bumpedFeeLimit, none) =>
      let (attempt, retryable, err) :=
        NewCustomTxAttempt c etx bumpedFee bumpedFeeLimit previousAttempt.TxType
      (attempt, bumpedFee, bumpedFeeLimit, retryable, err)

/-- `NewEmptyTxAttempt`: a zero-value legacy transaction from and to the
source address; only the signed bytes and hash of the attempt are set. -/
def NewEmptyTxAttempt (c : evmTxAttemptBuilder) (nonce : Nat) (feeLimit : Nat)
    (fee : EvmFee) (fromAddress : Address) : Except TxErr TxAttempt :=
  let value : Int := 0
  let payload : List Nat := []
  match fee.Legacy with
  | none => .error .emptyNilLegacy
  | some legacy =>
      let tx := newLegacyTransaction nonce fromAddress value feeLimit legacy
        payload
      match c.SignTx fromAddress tx with
      | .error e => .error (.signFailed e)
      | .ok (hash, signedTxBytes) =>
          .ok { (default : TxAttempt) with
                  SignedRawTx := signedTxBytes
                  Hash := hash }

end Txmgr

namespace Txmgr

/-! Concrete fixtures used by witnesses and counterexamples. -/

/-- A sample intent (spec §8: sequence 5, fee limit 21000). -/
def sampleTx : Tx :=
  { ID := 1, Sequence := 5, FromAddress := 7, ToAddress := 170, Value := 0,
    FeeLimit := 21000, EncodedPayload := [1, 2] }

/-- A keystore that always signs successfully. -/
def okKeystore : Address → UnsignedTx → Nat → Except String SignedTx :=
  fun _ _ _ => .ok { hash := 42, rlp := [9, 9] }

/-- Sample configuration: floor 1, tip floor 1, ceiling 1000 for every key. -/
def sampleConfig : FeeConfig :=
  { EIP1559DynamicFees := false, TipCapMin := 1, PriceMin := 1,
    PriceMaxKey := fun _ => 1000 }

/-- A builder whose estimator succeeds with a legacy quote of 100 and bumps
to 120. -/
def okBuilder : evmTxAttemptBuilder :=
  { chainID := 3, feeConfig := sampleConfig, keystore := okKeystore,
    GetFee := fun _ _ _ =>
      ({ Legacy := some 100, DynamicFeeCap := none, DynamicTipCap := none },
        21000, none),
    BumpFee := fun _ _ _ _ =>
      ({ Legacy := some 120, DynamicFeeCap := none, DynamicTipCap := none },
        21000, none) }

/-- A builder whose estimator always fails. -/
def downEstimatorBuilder : evmTxAttemptBuilder :=
  { okBuilder with
    GetFee := fun _ _ _ => (default, 0, some "connection refused"),
    BumpFee := fun _ _ _ _ => (default, 0, some "connection refused") }

/-- A builder whose per-key ceiling is 50 (too low for a price of 100). -/
def lowCeilingBuilder : evmTxAttemptBuilder :=
  { okBuilder with
    feeConfig := { sampleConfig with PriceMaxKey := fun _ => 50 } }

/-- A legacy quote of 100 as an `EvmFee`. -/
def legacyFee100 : EvmFee :=
  { Legacy := some 100, DynamicFeeCap := none, DynamicTipCap := none }

/-- A previous legacy attempt with fee 100, as held by the confirmer. -/
def prevLegacyAttempt : TxAttempt :=
  { (default : TxAttempt) with TxFee := legacyFee100, TxType := 0 }

end Txmgr

namespace Txmgr

/-! Claim theorems. -/

/-- C1 (counterexample): with floor 1 and ceiling 50, a legacy price of 100
fails floor/ceiling validation inside the legacy path, yet
`NewCustomTxAttempt` returns the error with the retryable flag `true` — not
`false` as claimed. -/
theorem newCustomTxAttempt_validation_retryable_cex :
    (NewCustomTxAttempt lowCeilingBuilder sampleTx legacyFee100 21000 0).2.2 =
      some (.invalidGas (.priceAboveMax 100 50 7)) ∧
    (NewCustomTxAttempt lowCeilingBuilder sampleTx legacyFee100 21000 0).2.1 ≠
      false := by
  exact ⟨rfl, by decide⟩

/-- C1 (amended): whenever floor/ceiling validation fails inside the legacy
(type 0) or dynamic (type 2) construction path, `NewCustomTxAttempt` returns
the wrapped validation error together with the retryable flag `true` and the
zero-value attempt. -/
theorem newCustomTxAttempt_validation_failure_retryable
    (c : evmTxAttemptBuilder) (etx : Tx) (fee : EvmFee) (gasLimit : Nat) :
    (∀ p e, fee.Legacy = some p →
      validateLegacyGas c.feeConfig.PriceMaxKey c.feeConfig.PriceMin p
          gasLimit etx = .error e →
      NewCustomTxAttempt c etx fee gasLimit 0 =
        (default, true, some (.invalidGas e)))
    ∧ (∀ feeCap tipCap e,
        fee.DynamicFeeCap = some feeCap → fee.DynamicTipCap = some tipCap →
        validateDynamicFeeGas c.feeConfig.PriceMaxKey c.feeConfig.TipCapMin
            feeCap tipCap gasLimit etx = .error e →
        NewCustomTxAttempt c etx fee gasLimit 2 =
          (default, true, some (.invalidGas e))) := by
  constructor
  · intro p e hLeg hVal
    simp [NewCustomTxAttempt, hLeg, newLegacyAttempt, hVal]
  · intro feeCap tipCap e hFC hTC hVal
    simp [NewCustomTxAttempt, EvmFee.ValidDynamic, hFC, hTC,
      newDynamicFeeAttempt, hVal]

/-- C1 (witness for the amended theorem). -/
theorem newCustomTxAttempt_validation_failure_retryable_witness :
    NewCustomTxAttempt lowCeilingBuilder sampleTx legacyFee100 21000 0 =
      (default, true,
        some (.invalidGas (.priceAboveMax 100 50 7))) :=
  (newCustomTxAttempt_validation_failure_retryable lowCeilingBuilder sampleTx
    legacyFee100 21000).1 100 (.priceAboveMax 100 50 7) rfl rfl

/-- C2: `validateLegacyGas` succeeds exactly when
floor ≤ price ≤ per-key ceiling; a price above the ceiling yields the
ceiling error carrying the price and the ceiling, a price below the floor
(and within the ceiling) yields the floor error carrying the price and the
floor. -/
theorem validateLegacyGas_floor_ceiling (kse : Address → Wei)
    (minGasPriceWei gasPrice : Wei) (gasLimit : Nat) (etx : Tx) :
    (validateLegacyGas kse minGasPriceWei gasPrice gasLimit etx = .ok () ↔
      minGasPriceWei ≤ gasPrice ∧ gasPrice ≤ kse etx.FromAddress)
    ∧ (kse etx.FromAddress < gasPrice →
        validateLegacyGas kse minGasPriceWei gasPrice gasLimit etx =
          .error (.priceAboveMax gasPrice (kse etx.FromAddress)
            etx.FromAddress))
    ∧ (gasPrice ≤ kse etx.FromAddress → gasPrice < minGasPriceWei →
        validateLegacyGas kse minGasPriceWei gasPrice gasLimit etx =
          .error (.priceBelowMin gasPrice minGasPriceWei etx.FromAddress)) := by
  unfold validateLegacyGas
  dsimp only [Wei] at *
  refine ⟨?_, ?_, ?_⟩
  · split_ifs with h1 h2 <;> simp <;> omega
  · intro h
    split_ifs <;> first | rfl | (exfalso; omega)
  · intro hle hlt
    split_ifs <;> first | rfl | (exfalso; omega)

/-- C2 (witness): floor 1, ceiling 1000 — price 100 passes, price 2000 is
rejected with the ceiling error. -/
theorem validateLegacyGas_floor_ceiling_witness :
    validateLegacyGas (fun _ => 1000) 1 2000 21000 sampleTx =
      .error (.priceAboveMax 2000 1000 7) :=
  (validateLegacyGas_floor_ceiling (fun _ => 1000) 1 2000 21000 sampleTx).2.1
    (by decide)

/-- C3: dynamic fee validation fails whenever fee-cap < tip-cap, and
fee-cap = tip-cap passes the ordering check: validation then succeeds as
soon as the 256-bit domain, per-key-ceiling and tip-floor checks hold. -/
theorem validateDynamicFeeGas_cap_ordering (kse : Address → Wei)
    (tipCapMinimum gasFeeCap gasTipCap : Wei) (gasLimit : Nat) (etx : Tx) :
    (gasFeeCap < gasTipCap →
      validateDynamicFeeGas kse tipCapMinimum gasFeeCap gasTipCap gasLimit
        etx ≠ .ok ())
    ∧ (gasFeeCap = gasTipCap → gasFeeCap < 2 ^ 256 →
        gasFeeCap ≤ kse etx.FromAddress → tipCapMinimum ≤ gasTipCap →
        validateDynamicFeeGas kse tipCapMinimum gasFeeCap gasTipCap gasLimit
          etx = .ok ()) := by
  unfold validateDynamicFeeGas Max256BitUInt
  dsimp only [Wei] at *
  refine ⟨?_, ?_⟩
  · intro hlt hok
    split_ifs at hok <;> first | omega | simp at hok
  · intro heq h256 hceil htip
    split_ifs <;> first | rfl | (exfalso; omega)

/-- C3 (witness): fee-cap 1 < tip-cap 2 is rejected; fee-cap = tip-cap = 2
with ceiling 1000 and tip floor 1 is accepted. -/
theorem validateDynamicFeeGas_cap_ordering_witness :
    validateDynamicFeeGas (fun _ => 1000) 1 1 2 21000 sampleTx ≠ .ok () ∧
    validateDynamicFeeGas (fun _ => 1000) 1 2 2 21000 sampleTx = .ok () :=
  ⟨(validateDynamicFeeGas_cap_ordering (fun _ => 1000) 1 1 2 21000
      sampleTx).1 (by decide),
   (validateDynamicFeeGas_cap_ordering (fun _ => 1000) 1 2 2 21000
      sampleTx).2 rfl (by norm_num) (by decide) (by decide)⟩

/-- C4 (code bug): the Go constant `Max256BitUInt` holds `2^256` and the
domain check is strict (`Cmp > 0`), so a fee-cap of exactly `2^256` — which
exceeds `2^256 − 1` and so does not fit the 256-bit domain — is accepted by
`validateDynamicFeeGas` when the remaining checks hold, contradicting the
documented 256-bit ceiling. -/
theorem validateDynamicFeeGas_accepts_2pow256 :
    2 ^ 256 - 1 < (2 : Nat) ^ 256 ∧
    Max256BitUInt = 2 ^ 256 ∧
    validateDynamicFeeGas (fun _ => 2 ^ 256) 0 (2 ^ 256) 0 21000 sampleTx =
      .ok () := by
  refine ⟨by norm_num, rfl, by rfl⟩

end Txmgr

namespace Txmgr

/-- C5: `NewCustomTxAttempt` with type 0 but no legacy quote, with type 2
but an invalid dynamic quote, or with a type tag outside {0, 2}, returns a
non-retryable error and the zero-value attempt (no attempt produced). -/
theorem newCustomTxAttempt_mismatch_not_retryable (c : evmTxAttemptBuilder)
    (etx : Tx) (fee : EvmFee) (gasLimit txType : Nat) :
    (fee.Legacy = none →
      NewCustomTxAttempt c etx fee gasLimit 0 =
        (default, false, some .wrongTypeLegacy))
    ∧ (fee.ValidDynamic = false →
      NewCustomTxAttempt c etx fee gasLimit 2 =
        (default, false, some .wrongTypeDynamic))
    ∧ (txType ≠ 0 → txType ≠ 2 →
      NewCustomTxAttempt c etx fee gasLimit txType =
        (default, false, some .unrecognisedType)) := by
  refine ⟨?_, ?_, ?_⟩
  · intro h
    simp [NewCustomTxAttempt, h]
  · intro h
    simp [NewCustomTxAttempt, h]
  · intro h0 h2
    simp [NewCustomTxAttempt, h0, h2]

/-- C5 (witness): a dynamic-only quote under type 0, a legacy-only quote
under type 2, and type tag 1, each rejected non-retryably. -/
theorem newCustomTxAttempt_mismatch_not_retryable_witness :
    NewCustomTxAttempt okBuilder sampleTx
        { Legacy := none, DynamicFeeCap := some 10, DynamicTipCap := some 2 }
        21000 0 = (default, false, some .wrongTypeLegacy) ∧
    NewCustomTxAttempt okBuilder sampleTx legacyFee100 21000 2 =
      (default, false, some .wrongTypeDynamic) ∧
    NewCustomTxAttempt okBuilder sampleTx legacyFee100 21000 1 =
      (default, false, some .unrecognisedType) :=
  ⟨(newCustomTxAttempt_mismatch_not_retryable okBuilder sampleTx
      { Legacy := none, DynamicFeeCap := some 10, DynamicTipCap := some 2 }
      21000 1).1 rfl,
   (newCustomTxAttempt_mismatch_not_retryable okBuilder sampleTx legacyFee100
      21000 1).2.1 rfl,
   (newCustomTxAttempt_mismatch_not_retryable okBuilder sampleTx legacyFee100
      21000 1).2.2 (by decide) (by decide)⟩

/-- C6: whenever the estimator's quote operation fails inside
`NewTxAttemptWithType`, or its bump operation fails inside
`NewBumpTxAttempt`, the builder returns the wrapped estimator error with
retryable `true` and the zero-value attempt. -/
theorem estimator_errors_retryable (c : evmTxAttemptBuilder) (etx : Tx)
    (txType : Nat) (previousAttempt : TxAttempt)
    (priorAttempts : List TxAttempt) (fee : EvmFee) (feeLimit : Nat)
    (msg : String) :
    (c.GetFee etx.EncodedPayload etx.FeeLimit
        (c.feeConfig.PriceMaxKey etx.FromAddress) = (fee, feeLimit, some msg) →
      NewTxAttemptWithType c etx txType =
        (default, fee, feeLimit, true, some (.estimatorFailed msg)))
    ∧ (c.BumpFee previousAttempt.TxFee etx.FeeLimit
        (c.feeConfig.PriceMaxKey etx.FromAddress)
        (newEvmPriorAttempts priorAttempts) = (fee, feeLimit, some msg) →
      NewBumpTxAttempt c etx previousAttempt priorAttempts =
        (default, fee, feeLimit, true, some (.bumpFailed msg))) := by
  constructor
  · intro h
    simp [NewTxAttemptWithType, h]
  · intro h
    simp [NewBumpTxAttempt, h]

/-- C6 (witness): a builder whose estimator is down. -/
theorem estimator_errors_retryable_witness :
    NewTxAttemptWithType downEstimatorBuilder sampleTx 0 =
      (default, default, 0, true,
        some (.estimatorFailed "connection refused")) ∧
    NewBumpTxAttempt downEstimatorBuilder sampleTx prevLegacyAttempt [] =
      (default, default, 0, true, some (.bumpFailed "connection refused")) :=
  ⟨(estimator_errors_retryable downEstimatorBuilder sampleTx 0
      prevLegacyAttempt [] default 0 "connection refused").1 rfl,
   (estimator_errors_retryable downEstimatorBuilder sampleTx 0
      prevLegacyAttempt [] default 0 "connection refused").2 rfl⟩

/-- C7: `NewTxAttempt` returns exactly what `NewTxAttemptWithType` returns at
type 2 when EIP-1559 dynamic fees are configured and type 0 otherwise. -/
theorem newTxAttempt_eq_withType (c : evmTxAttemptBuilder) (etx : Tx) :
    NewTxAttempt c etx =
      NewTxAttemptWithType c etx
        (if c.feeConfig.EIP1559DynamicFees then 2 else 0) := rfl

/-- C8: `NewBumpTxAttempt` consults the estimator's bump operation with the
previous attempt's fee, the intent's fee limit, the per-key price ceiling
and the converted prior attempts, then (on success) builds the attempt via
`NewCustomTxAttempt` with the previous attempt's transaction type; the
conversion yields exactly one entry per prior attempt, in order. -/
theorem newBumpTxAttempt_calls (c : evmTxAttemptBuilder) (etx : Tx)
    (previousAttempt : TxAttempt) (priorAttempts : List TxAttempt)
    (bumpedFee : EvmFee) (bumpedFeeLimit : Nat) :
    (c.BumpFee previousAttempt.TxFee etx.FeeLimit
        (c.feeConfig.PriceMaxKey etx.FromAddress)
        (newEvmPriorAttempts priorAttempts) = (bumpedFee, bumpedFeeLimit, none) →
      NewBumpTxAttempt c etx previousAttempt priorAttempts =
        (let r := NewCustomTxAttempt c etx bumpedFee bumpedFeeLimit
           previousAttempt.TxType
         (r.1, bumpedFee, bumpedFeeLimit, r.2.1, r.2.2)))
    ∧ (newEvmPriorAttempts priorAttempts).length = priorAttempts.length
    ∧ (∀ i : Nat, (newEvmPriorAttempts priorAttempts).get? i =
        (priorAttempts.get? i).map EvmPriorAttempt.ofTxAttempt) := by
  refine ⟨?_, ?_, ?_⟩
  · intro h
    simp [NewBumpTxAttempt, h]
  · simp [newEvmPriorAttempts]
  · intro i
    simp [newEvmPriorAttempts]

/-- C8 (witness): bump a legacy attempt with one prior attempt. -/
theorem newBumpTxAttempt_calls_witness :
    NewBumpTxAttempt okBuilder sampleTx prevLegacyAttempt [prevLegacyAttempt] =
      (let r := NewCustomTxAttempt okBuilder sampleTx
         { Legacy := some 120, DynamicFeeCap := none, DynamicTipCap := none }
         21000 prevLegacyAttempt.TxType
       (r.1, { Legacy := some 120, DynamicFeeCap := none,
               DynamicTipCap := none }, 21000, r.2.1, r.2.2)) ∧
    (newEvmPriorAttempts [prevLegacyAttempt]).get? 0 =
      some (EvmPriorAttempt.ofTxAttempt prevLegacyAttempt) :=
  ⟨(newBumpTxAttempt_calls okBuilder sampleTx prevLegacyAttempt
      [prevLegacyAttempt]
      { Legacy := some 120, DynamicFeeCap := none, DynamicTipCap := none }
      21000).1 rfl,
   ((newBumpTxAttempt_calls okBuilder sampleTx prevLegacyAttempt
      [prevLegacyAttempt]
      { Legacy := some 120, DynamicFeeCap := none, DynamicTipCap := none }
      21000).2.2 0).trans rfl⟩

end Txmgr

namespace Txmgr

/-- Helper: on success, `newSignedAttempt` returns an attempt in state
`InProgress`. -/
theorem newSignedAttempt_ok_state (c : evmTxAttemptBuilder) (etx : Tx)
    (tx : UnsignedTx) (a : TxAttempt)
    (h : newSignedAttempt c etx tx = .ok a) : a.State = .inProgress := by
  unfold newSignedAttempt at h
  cases hs : c.SignTx etx.FromAddress tx with
  | error e => rw [hs] at h; simp at h
  | ok pr =>
      obtain ⟨hash, bytes⟩ := pr
      rw [hs] at h
      dsimp only at h
      cases Except.ok.inj h
      rfl

/-- C9: every attempt successfully produced by the legacy path has state
`InProgress`, fee equal to the validated legacy price, type 0 and
chain-specific fee limit equal to the supplied gas limit; every attempt
successfully produced by the dynamic path has state `InProgress`, fee equal
to the validated (fee-cap, tip-cap) pair, type 2 and the supplied gas
limit. -/
theorem built_attempt_fields (c : evmTxAttemptBuilder) (etx : Tx)
    (gasPrice feeCap tipCap : Wei) (gasLimit : Nat) (a b : TxAttempt) :
    (newLegacyAttempt c etx gasPrice gasLimit = .ok a →
      a.State = .inProgress ∧
      a.TxFee = { Legacy := some gasPrice, DynamicFeeCap := none,
                  DynamicTipCap := none } ∧
      a.TxType = 0 ∧ a.ChainSpecificFeeLimit = gasLimit)
    ∧ (newDynamicFeeAttempt c etx feeCap tipCap gasLimit = .ok b →
      b.State = .inProgress ∧
      b.TxFee = { Legacy := none, DynamicFeeCap := some feeCap,
                  DynamicTipCap := some tipCap } ∧
      b.TxType = 2 ∧ b.ChainSpecificFeeLimit = gasLimit) := by
  constructor
  · intro h
    unfold newLegacyAttempt at h
    cases hv : validateLegacyGas c.feeConfig.PriceMaxKey c.feeConfig.PriceMin
        gasPrice gasLimit etx with
    | error e => rw [hv] at h; simp at h
    | ok u =>
        rw [hv] at h
        dsimp only at h
        cases hs : c.SignTx etx.FromAddress (newLegacyTransaction etx.Sequence
            etx.ToAddress etx.Value gasLimit gasPrice etx.EncodedPayload) with
        | error e => rw [hs] at h; simp at h
        | ok pr =>
            obtain ⟨hash, bytes⟩ := pr
            rw [hs] at h
            dsimp only at h
            cases Except.ok.inj h
            exact ⟨rfl, rfl, rfl, rfl⟩
  · intro h
    unfold newDynamicFeeAttempt at h
    cases hv : validateDynamicFeeGas c.feeConfig.PriceMaxKey
        c.feeConfig.TipCapMin feeCap tipCap gasLimit etx with
    | error e => rw [hv] at h; simp at h
    | ok u =>
        rw [hv] at h
        dsimp only at h
        cases hs : newSignedAttempt c etx (newDynamicFeeTransaction
            etx.Sequence etx.ToAddress etx.Value gasLimit c.chainID tipCap
            feeCap etx.EncodedPayload) with
        | error e => rw [hs] at h; simp at h
        | ok att =>
            rw [hs] at h
            dsimp only at h
            cases Except.ok.inj h
            exact ⟨newSignedAttempt_ok_state c etx _ att hs, rfl, rfl, rfl⟩

/-- The attempt the legacy path produces for `okBuilder`, `sampleTx`,
price 100, gas limit 21000 (floor 1, ceiling 1000, keystore succeeds). -/
def legacyAttemptSample : TxAttempt :=
  { ID := 0, TxID := 1, State := .inProgress,
    TxFee := { Legacy := some 100, DynamicFeeCap := none,
               DynamicTipCap := none },
    TxType := 0, ChainSpecificFeeLimit := 21000, SignedRawTx := [9, 9],
    Hash := 42, BroadcastBeforeBlockNum := none, Tx := sampleTx }

/-- The attempt the dynamic path produces for `okBuilder`, `sampleTx`,
fee-cap 10, tip-cap 2, gas limit 21000. -/
def dynamicAttemptSample : TxAttempt :=
  { ID := 0, TxID := 1, State := .inProgress,
    TxFee := { Legacy := none, DynamicFeeCap := some 10,
               DynamicTipCap := some 2 },
    TxType := 2, ChainSpecificFeeLimit := 21000, SignedRawTx := [9, 9],
    Hash := 42, BroadcastBeforeBlockNum := none, Tx := sampleTx }

/-- C9 (witness): with floor 1, ceiling 1000 and a succeeding keystore, the
legacy path at price 100 and the dynamic path at caps (10, 2) produce
attempts with the claimed fields. -/
theorem built_attempt_fields_witness :
    (legacyAttemptSample.State = .inProgress ∧
     legacyAttemptSample.TxFee =
       { Legacy := some 100, DynamicFeeCap := none, DynamicTipCap := none } ∧
     legacyAttemptSample.TxType = 0 ∧
     legacyAttemptSample.ChainSpecificFeeLimit = 21000) ∧
    (dynamicAttemptSample.State = .inProgress ∧
     dynamicAttemptSample.TxFee =
       { Legacy := none, DynamicFeeCap := some 10, DynamicTipCap := some 2 } ∧
     dynamicAttemptSample.TxType = 2 ∧
     dynamicAttemptSample.ChainSpecificFeeLimit = 21000) :=
  ⟨(built_attempt_fields okBuilder sampleTx 100 10 2 21000
      legacyAttemptSample dynamicAttemptSample).1 rfl,
   (built_attempt_fields okBuilder sampleTx 100 10 2 21000
      legacyAttemptSample dynamicAttemptSample).2 rfl⟩

end Txmgr

namespace Txmgr

/-- C10: on success, `NewEmptyTxAttempt` populates only the signed raw
transaction bytes and the hash — which come from signing the zero-value
legacy self-send — while the state, fee, type tag and chain-specific fee
limit of the returned attempt all remain at their zero values (in particular
the state is not `InProgress`). -/
theorem newEmptyTxAttempt_frame (c : evmTxAttemptBuilder)
    (nonce feeLimit : Nat) (fee : EvmFee) (fromAddress : Address)
    (a : TxAttempt) :
    NewEmptyTxAttempt c nonce feeLimit fee fromAddress = .ok a →
      a.State = .unset ∧ a.State ≠ .inProgress ∧
      a.TxFee = { Legacy := none, DynamicFeeCap := none,
                  DynamicTipCap := none } ∧
      a.TxType = 0 ∧ a.ChainSpecificFeeLimit = 0 ∧
      a = { (default : TxAttempt) with SignedRawTx := a.SignedRawTx,
                                       Hash := a.Hash } ∧
      (∃ legacy, fee.Legacy = some legacy ∧
        c.SignTx fromAddress (newLegacyTransaction nonce fromAddress 0
          feeLimit legacy []) = .ok (a.Hash, a.SignedRawTx)) := by
  intro h
  unfold NewEmptyTxAttempt at h
  dsimp only at h
  cases hLeg : fee.Legacy with
  | none => rw [hLeg] at h; simp at h
  | some legacy =>
      rw [hLeg] at h
      dsimp only at h
      cases hs : c.SignTx fromAddress (newLegacyTransaction nonce fromAddress
          0 feeLimit legacy []) with
      | error e => rw [hs] at h; simp at h
      | ok pr =>
          obtain ⟨hash, bytes⟩ := pr
          rw [hs] at h
          dsimp only at h
          cases Except.ok.inj h
          exact ⟨rfl, by simp, rfl, rfl, rfl, rfl, legacy, rfl, hs⟩

/-- The attempt `NewEmptyTxAttempt` builds for `okBuilder`, nonce 5, fee
limit 21000, a legacy quote of 100 and source address 7: the zero-value
attempt with only the signed bytes and the hash set. -/
def emptyAttemptSample : TxAttempt :=
  { (default : TxAttempt) with SignedRawTx := [9, 9], Hash := 42 }

/-- C10 (witness): the empty attempt built by `okBuilder` carries only the
signed bytes and the hash. -/
theorem newEmptyTxAttempt_frame_witness :
    emptyAttemptSample.State = .unset ∧
    emptyAttemptSample.State ≠ .inProgress ∧
    emptyAttemptSample.TxFee =
      { Legacy := none, DynamicFeeCap := none, DynamicTipCap := none } ∧
    emptyAttemptSample.TxType = 0 ∧
    emptyAttemptSample.ChainSpecificFeeLimit = 0 ∧
    emptyAttemptSample = { (default : TxAttempt) with
                           SignedRawTx := emptyAttemptSample.SignedRawTx,
                           Hash := emptyAttemptSample.Hash } ∧
    (∃ legacy, legacyFee100.Legacy = some legacy ∧
      okBuilder.SignTx 7 (newLegacyTransaction 5 7 0 21000 legacy []) =
        .ok (emptyAttemptSample.Hash, emptyAttemptSample.SignedRawTx)) :=
  newEmptyTxAttempt_frame okBuilder 5 21000 legacyFee100 7
    emptyAttemptSample rfl

end Txmgr
